import Mathlib

/-!
# SmartPay-AP reconciliation engine: shallow embedding and verification

This file embeds the core of the SmartPay-AP repository
(`src/data.py`, `src/features.py`, `src/model.py`, `src/agent/scorer.py`,
`src/agent/agent_graph.py`) in Lean 4 and proves, or refutes, the frozen
claims about it.

Embedding conventions:
* pandas floating-point columns are modelled by `PFloat`, a rational number
  extended with `nan` and the two signed infinities, with the pandas/numpy
  semantics of the operations the source uses (`-`, `/`, `abs`, `fillna`,
  `np.clip`, comparisons that are `False` on NaN, `replace([inf,-inf],nan)`);
* nullable scalar columns are `Option` values (a `None`/`NaN` cell is `none`);
* dates are `Option ℤ` (days on a linear calendar; an unparseable date is
  `none`, matching `pd.to_datetime(errors="coerce")` producing `NaT`);
* the global numpy random stream is threaded explicitly: `np.random.seed(42)`
  resets the stream, so every seeded section reads the same fixed sequence
  `rand 0, rand 1, ...`; the stream is carried in the environment (`Env.rand`)
  as explicit state, and a section that draws `len(df)` numbers after a
  reseed consumes indices `0..n-1` while a section that continues without
  reseeding consumes the following indices `n..2n-1`;
* file loading and model deserialization (`load_data`, `load_model`) are the
  external collaborators excluded by the specification: the environment binds
  the `data_dir`/`model_path` strings to the already-loaded tables and to the
  loaded classifier artifact;
* the classifier artifact is opaque beyond its contract: a feature list and a
  `predict_proba` function from the selected feature matrix to the mismatch
  probability of the first row;
* Python exceptions become `Except` values.
-/

set_option maxRecDepth 8192

namespace SmartPay

/-- Decidable equality of `Except` results, for evaluating the embedded
functions on concrete inputs. -/
instance {ε α : Type} [DecidableEq ε] [DecidableEq α] :
    DecidableEq (Except ε α) := fun
  | .ok a, .ok b =>
    match decEq a b with
    | isTrue h => isTrue (h ▸ rfl)
    | isFalse h => isFalse (fun he => h (Except.ok.inj he))
  | .error a, .error b =>
    match decEq a b with
    | isTrue h => isTrue (h ▸ rfl)
    | isFalse h => isFalse (fun he => h (Except.error.inj he))
  | .ok _, .error _ => isFalse (fun he => Except.noConfusion he)
  | .error _, .ok _ => isFalse (fun he => Except.noConfusion he)

/-! ## A model of pandas float cells -/

/-- A pandas float cell: a rational value, `NaN`, `+inf` or `-inf`. -/
inductive PFloat where
  | val (q : ℚ)
  | nan
  | pinf
  | ninf
deriving DecidableEq, Repr, Inhabited

namespace PFloat

/-- A nullable numeric column cell as a pandas float (`None` is `NaN`). -/
def ofOpt : Option ℚ → PFloat
  | some q => val q
  | none => nan

/-- Subtraction of two pandas floats (only value/NaN cases arise here;
NaN propagates, as in pandas). -/
def sub : PFloat → PFloat → PFloat
  | val a, val b => val (a - b)
  | pinf, val _ => pinf
  | ninf, val _ => ninf
  | val _, pinf => ninf
  | val _, ninf => pinf
  | pinf, ninf => pinf
  | ninf, pinf => ninf
  | _, _ => nan

/-- Difference of two nullable date columns in days
(`(a - b).dt.days`: `NaT` on either side gives `NaN`). -/
def subDays (a b : Option ℤ) : PFloat :=
  match a, b with
  | some x, some y => val ((x - y : ℤ) : ℚ)
  | _, _ => nan

/-- Division with IEEE-754 zero-division semantics as numpy produces them:
`x/0` is `±inf` for `x ≠ 0` and `NaN` for `x = 0`. -/
def div : PFloat → PFloat → PFloat
  | val a, val b =>
      if b = 0 then (if a = 0 then nan else if 0 < a then pinf else ninf)
      else val (a / b)
  | pinf, val b => if 0 ≤ b then pinf else ninf
  | ninf, val b => if 0 ≤ b then ninf else pinf
  | val _, pinf => val 0
  | val _, ninf => val 0
  | _, _ => nan

/-- `Series.fillna d`: replaces `NaN` only; infinities pass through. -/
def fillna (d : ℚ) : PFloat → PFloat
  | nan => val d
  | x => x

/-- `np.clip lo hi`: clamps values, maps `+inf` to `hi`, `-inf` to `lo`,
and leaves `NaN` as `NaN`. -/
def clip (lo hi : ℚ) : PFloat → PFloat
  | val q => val (max lo (min hi q))
  | pinf => val hi
  | ninf => val lo
  | nan => nan

/-- Absolute value. -/
def abs : PFloat → PFloat
  | val q => val |q|
  | nan => nan
  | _ => pinf

/-- `x > c` as pandas evaluates it: `False` on `NaN`. -/
def gtQ (x : PFloat) (c : ℚ) : Bool :=
  match x with
  | val q => decide (c < q)
  | pinf => true
  | _ => false

/-- `x < c` as pandas evaluates it: `False` on `NaN`. -/
def ltQ (x : PFloat) (c : ℚ) : Bool :=
  match x with
  | val q => decide (q < c)
  | ninf => true
  | _ => false

/-- `Series.replace([np.inf, -np.inf], np.nan).fillna(0.0)`: every
non-finite cell becomes `0.0`. -/
def replaceInfNan : PFloat → PFloat
  | val q => val q
  | _ => val 0

/-- Whether the cell holds a finite value. -/
def isVal : PFloat → Bool
  | val _ => true
  | _ => false

/-- The held value, with a default for non-finite cells (used where the
source applies `float(...)` to a column that is finite by construction). -/
def valD (d : ℚ) : PFloat → ℚ
  | val q => q
  | _ => d

end PFloat

/-! ## Data model (`src/data.py`, spec §3) -/

/-- One row of the aggregated invoice table produced by
`normalize_types` (`src/data.py`): one invoice per
`(invoice_id, vendor_id, vendor_name, currency)` key. -/
structure AggregatedInvoice where
  invoice_id : String
  vendor_id : String
  vendor_name : Option String
  currency : String
  invoice_total : Option ℚ
  line_count : ℕ
  max_qty : Option ℚ
  avg_unit_price : Option ℚ
  invoice_date : Option ℤ
deriving DecidableEq, Repr, Inhabited

/-- One row of the combined purchase-order / goods-receipt table. -/
structure PurchaseOrderRecord where
  po_number : String
  vendor_id : String
  vendor_name : Option String
  currency : String
  po_total : Option ℚ
  po_date : Option ℤ
  grn_number : Option String
  grn_date : Option ℤ
deriving DecidableEq, Repr, Inhabited

/-- One row of the merged invoice/PO dataframe produced by `build_links`:
the invoice columns, the derived `candidate_po`, and the PO-side columns,
which are individually nullable (the left merge leaves them all `NaN` for
an unmatched invoice; later perturbations null some of them selectively). -/
structure LinkedPair where
  invoice_id : String
  vendor_id : String
  vendor_name_inv : Option String
  currency : String
  invoice_total : Option ℚ
  line_count : ℕ
  max_qty : Option ℚ
  avg_unit_price : Option ℚ
  invoice_date : Option ℤ
  candidate_po : String
  po_number : Option String
  vendor_name_po : Option String
  po_total : Option ℚ
  po_date : Option ℤ
  grn_number : Option String
  grn_date : Option ℤ
deriving DecidableEq, Repr, Inhabited

/-! ## Linker (`src/features.py`, lines 6–40) -/

/-- `invoice_to_po_key`: map `INV0123` to `PO0123`; an unrecognized
prefixed id passes through unchanged. -/
def invoice_to_po_key (s : String) : String :=
  if s.startsWith "INV" then "PO" ++ s.drop 3 else s

/-- One merged row: invoice columns carried through, PO columns taken from
the matched record, or all `NaN` when the left merge found no match. -/
def mergeRow (inv : AggregatedInvoice) (cand : String)
    (p : Option PurchaseOrderRecord) : LinkedPair :=
  { invoice_id := inv.invoice_id
    vendor_id := inv.vendor_id
    vendor_name_inv := inv.vendor_name
    currency := inv.currency
    invoice_total := inv.invoice_total
    line_count := inv.line_count
    max_qty := inv.max_qty
    avg_unit_price := inv.avg_unit_price
    invoice_date := inv.invoice_date
    candidate_po := cand
    po_number := p.map (·.po_number)
    vendor_name_po := p.bind (·.vendor_name)
    po_total := p.bind (·.po_total)
    po_date := p.bind (·.po_date)
    grn_number := p.bind (·.grn_number)
    grn_date := p.bind (·.grn_date) }

/-- `df.loc[mask, ["po_number","po_date","vendor_name_po","po_total",
"grn_number","grn_date"]] = None`: the randomized link break nulls every
PO-derived column of the row. -/
def breakLink (r : LinkedPair) : LinkedPair :=
  { r with po_number := none, po_date := none, vendor_name_po := none,
           po_total := none, grn_number := none, grn_date := none }

/-- `build_links` (`src/features.py` lines 13–40): derive `candidate_po`,
left-merge on exact `(candidate_po, vendor_id, currency)` =
`(po_number, vendor_id, currency)` equality, then — still in this function —
`np.random.seed(42)` and null the PO columns of every row whose draw is
below `0.15` ("randomly break some links to simulate missing POs").
`rand` is the seeded stream (see the file header). -/
def build_links (rand : ℕ → ℚ) (inv_agg : List AggregatedInvoice)
    (po : List PurchaseOrderRecord) : List LinkedPair :=
  let merged := inv_agg.flatMap (fun inv =>
    let cand := invoice_to_po_key inv.invoice_id
    let ms := po.filter (fun p =>
      p.po_number == cand && p.vendor_id == inv.vendor_id &&
      p.currency == inv.currency)
    match ms with
    | [] => [mergeRow inv cand none]
    | _ => ms.map (fun p => mergeRow inv cand (some p)))
  merged.enum.map (fun ir =>
    if rand ir.1 < 3/20 then breakLink ir.2 else ir.2)

/-! ## Feature engine (`src/features.py`, lines 42–126) -/

/-- `vendor_similarity` (inner function of `engineer_features`): `0` when
either name is missing; lower-case and strip both; `1` on exact equality;
otherwise token-set Jaccard similarity (Python `split()` splits on
whitespace runs and drops empty tokens). -/
def vendor_similarity (v1 v2 : Option String) : ℚ :=
  match v1, v2 with
  | some a, some b =>
    let x := a.toLower.trim
    let y := b.toLower.trim
    if x = y then 1
    else
      let t1 := ((x.split Char.isWhitespace).filter (· ≠ "")).dedup
      let t2 := ((y.split Char.isWhitespace).filter (· ≠ "")).dedup
      let common := t1.filter (· ∈ t2)
      let total := (t1 ++ t2).dedup
      if total = [] then 0 else (common.length : ℚ) / (total.length : ℚ)
  | _, _ => 0

/-- One row of the engineered feature table: the (possibly re-perturbed)
linked-pair columns followed by the computed feature columns. The six
numeric feature columns listed at the end of `engineer_features` are kept
as `PFloat` cells so that the final `replace([inf,-inf],nan).fillna(0)`
step is part of the model; the `astype(int)` flags are naturals. -/
structure FeatureRow where
  invoice_id : String
  vendor_id : String
  vendor_name_inv : Option String
  currency : String
  invoice_total : Option ℚ
  line_count : ℕ
  max_qty : Option ℚ
  avg_unit_price : Option ℚ
  invoice_date : Option ℤ
  candidate_po : String
  po_number : Option String
  vendor_name_po : Option String
  po_total : Option ℚ
  po_date : Option ℤ
  grn_number : Option String
  grn_date : Option ℤ
  vendor_similarity : PFloat
  vendor_match : ℕ
  has_grn : ℕ
  amount_delta : PFloat
  amount_delta_abs : PFloat
  amount_delta_pct : PFloat
  amount_over_tolerance : ℕ
  amount_pct_over_tolerance : ℕ
  days_delta : PFloat
  days_since_grn : PFloat
  invoice_before_po : ℕ
  invoice_too_late : ℕ
  invoice_before_grn : ℕ
  po_missing : ℕ
  currency_match : ℕ
deriving DecidableEq, Repr, Inhabited

/-- The row-wise content of `engineer_features` for the row at index `i` of
an `n`-row linked dataframe, in source order:
1. `vendor_similarity` / `vendor_match`;
2. `has_grn` from `grn_number`, then `np.random.seed(42)` and a mask
   `rand i < 0.15` that forces `has_grn = 0` and nulls `grn_number`;
3. the amount columns (`to_numeric` is the identity on already-numeric
   nullable cells);
4. the date-difference columns and their flags (`NaN` comparisons are
   `False`);
5. `po_missing` from `po_number`, then — without a reseed, so the stream
   continues at index `n + i` — a mask `rand (n+i) < 0.05` that forces
   `po_missing = 1` and nulls `po_number`, `po_total`, `po_date` (after the
   amount columns were computed);
6. `currency_match = 1`, then `np.random.seed(42)` again — so the stream
   restarts at index `i` — and a mask `rand i < 0.05` that zeroes it;
7. `replace([np.inf,-np.inf], np.nan).fillna(0.0)` on the six numeric
   feature columns. -/
def engineerRow (rand : ℕ → ℚ) (n i : ℕ) (r : LinkedPair) : FeatureRow :=
  let vsim := vendor_similarity r.vendor_name_inv r.vendor_name_po
  let vmatch : ℕ := if 4/5 < vsim then 1 else 0
  let hasGrn0 : ℕ := if r.grn_number.isSome then 1 else 0
  let grnMask := rand i < 3/20
  let hasGrn : ℕ := if grnMask then 0 else hasGrn0
  let grnNum : Option String := if grnMask then none else r.grn_number
  let amountDelta :=
    ((PFloat.ofOpt r.invoice_total).sub (PFloat.ofOpt r.po_total)).fillna 0
  let amountAbs := amountDelta.abs
  let pct := ((amountDelta.div (PFloat.ofOpt r.po_total)).fillna 0).clip (-1) 1
  let overTol : ℕ := if amountAbs.gtQ 100 then 1 else 0
  let pctOver : ℕ := if pct.abs.gtQ (1/20) then 1 else 0
  let daysDelta := PFloat.subDays r.invoice_date r.po_date
  let daysGrn := PFloat.subDays r.invoice_date r.grn_date
  let beforePo : ℕ := if daysDelta.ltQ (-2) then 1 else 0
  let tooLate : ℕ := if daysDelta.gtQ 120 then 1 else 0
  let beforeGrn : ℕ := if daysGrn.ltQ (-3) then 1 else 0
  let poMissing0 : ℕ := if r.po_number.isNone then 1 else 0
  let addMask := rand (n + i) < 1/20
  let poMissing : ℕ := if addMask then 1 else poMissing0
  let poNum : Option String := if addMask then none else r.po_number
  let poTotal : Option ℚ := if addMask then none else r.po_total
  let poDate : Option ℤ := if addMask then none else r.po_date
  let curMask := rand i < 1/20
  let curMatch : ℕ := if curMask then 0 else 1
  { invoice_id := r.invoice_id
    vendor_id := r.vendor_id
    vendor_name_inv := r.vendor_name_inv
    currency := r.currency
    invoice_total := r.invoice_total
    line_count := r.line_count
    max_qty := r.max_qty
    avg_unit_price := r.avg_unit_price
    invoice_date := r.invoice_date
    candidate_po := r.candidate_po
    po_number := poNum
    vendor_name_po := r.vendor_name_po
    po_total := poTotal
    po_date := poDate
    grn_number := grnNum
    grn_date := r.grn_date
    vendor_similarity := (PFloat.val vsim).replaceInfNan
    vendor_match := vmatch
    has_grn := hasGrn
    amount_delta := amountDelta.replaceInfNan
    amount_delta_abs := amountAbs.replaceInfNan
    amount_delta_pct := pct.replaceInfNan
    amount_over_tolerance := overTol
    amount_pct_over_tolerance := pctOver
    days_delta := daysDelta.replaceInfNan
    days_since_grn := daysGrn.replaceInfNan
    invoice_before_po := beforePo
    invoice_too_late := tooLate
    invoice_before_grn := beforeGrn
    po_missing := poMissing
    currency_match := curMatch }

/-- `engineer_features` (`src/features.py` lines 42–126): the row-wise
computation above applied to every row of the linked dataframe. -/
def engineer_features (rand : ℕ → ℚ) (df_linked : List LinkedPair) :
    List FeatureRow :=
  df_linked.enum.map (fun ir => engineerRow rand df_linked.length ir.1 ir.2)

/-! ## Classifier contract (`src/model.py`) -/

/-- `FEATURE_COLS` (`src/model.py` lines 12–27). -/
def FEATURE_COLS : List String :=
  ["vendor_match", "vendor_similarity", "has_grn", "amount_delta_abs",
   "amount_delta_pct", "amount_over_tolerance", "amount_pct_over_tolerance",
   "days_delta", "days_since_grn", "invoice_before_po", "invoice_too_late",
   "invoice_before_grn", "po_missing", "currency_match"]

/-- Column lookup by name on a feature row, as `row[col].astype(float)`
reads it; `none` is pandas' `KeyError` for a column the table lacks.
The six `PFloat` columns are finite by construction after the final
replacement step (proved below), so reading them as plain rationals with
`valD 0` is faithful. -/
def featureValue (r : FeatureRow) : String → Option ℚ
  | "vendor_match" => some r.vendor_match
  | "vendor_similarity" => some (r.vendor_similarity.valD 0)
  | "has_grn" => some r.has_grn
  | "amount_delta_abs" => some (r.amount_delta_abs.valD 0)
  | "amount_delta_pct" => some (r.amount_delta_pct.valD 0)
  | "amount_over_tolerance" => some r.amount_over_tolerance
  | "amount_pct_over_tolerance" => some r.amount_pct_over_tolerance
  | "days_delta" => some (r.days_delta.valD 0)
  | "days_since_grn" => some (r.days_since_grn.valD 0)
  | "invoice_before_po" => some r.invoice_before_po
  | "invoice_too_late" => some r.invoice_too_late
  | "invoice_before_grn" => some r.invoice_before_grn
  | "po_missing" => some r.po_missing
  | "currency_match" => some r.currency_match
  | "amount_delta" => some (r.amount_delta.valD 0)
  | _ => none

/-- The loaded model artifact, opaque beyond the spec §4.5 contract:
`features_used` is the embedded feature list (`clf._features_used`; absent
only when the artifact predates it, in which case `score_invoice` falls
back to a variance-based selection), and `predict_proba` maps the selected
feature matrix to `predict_proba(X)[:,1][0]`, the mismatch probability of
its first row. -/
structure Classifier where
  features_used : Option (List String)
  predict_proba : List (List ℚ) → ℚ

/-- The `facts` dictionary of a match result: a string-keyed Python dict
restricted to the five canonical keys; `none` means the key is absent
(consumers read it with `dict.get` and a default). -/
structure FactsDict where
  amount_delta : Option ℚ
  vendor_match : Option Bool
  po_missing : Option Bool
  has_grn : Option Bool
  days_delta : Option ℚ
deriving DecidableEq, Repr, Inhabited

/-- The empty dict `{}`. -/
def emptyFacts : FactsDict := ⟨none, none, none, none, none⟩

/-- The two shapes of dictionary `score_invoice` returns. -/
inductive ScoreResult where
  | notFound (message : String)
  | found (status : String) (confidence : ℚ) (facts : FactsDict)
deriving DecidableEq, Repr, Inhabited

/-- The runtime environment of a scoring call: the `data_dir` and
`model_path` strings together with what loading them yields (the two
normalized tables and the classifier artifact — `load_data`,
`normalize_types` and `load_model` are the excluded I/O collaborators),
plus the numpy random stream as reset by the hard-coded
`np.random.seed(42)`, which makes it a fixed sequence. -/
structure Env where
  data_dir : String
  model_path : String
  inv_agg : List AggregatedInvoice
  po : List PurchaseOrderRecord
  clf : Classifier
  rand : ℕ → ℚ

/-- `nunique()` of a numeric column (no `NaN` cells arise in the feature
columns it is applied to). -/
def nunique (vals : List ℚ) : ℕ := vals.dedup.length

/-- The feature columns used for prediction (`src/agent/scorer.py`
lines 28–35): the artifact's `_features_used` when present, else the
canonical columns present in the table whose `nunique() > 1`. -/
def selectCols (clf : Classifier) (feats : List FeatureRow) : List String :=
  match clf.features_used with
  | some cols => cols
  | none => FEATURE_COLS.filter (fun c =>
      1 < nunique (feats.filterMap (fun r => featureValue r c)))

/-! ## Scorer (`src/agent/scorer.py`) -/

/-- `score_invoice` (`src/agent/scorer.py` lines 13–55): re-run
linking and feature engineering over the whole dataset, filter to the
requested `(invoice_id, po_number)` pair, and apply the loaded classifier.
The `FileNotFoundError` branch is subsumed by the environment already
holding the loaded artifact; an unknown feature column raises (`KeyError`),
modelled as `.error`. -/
def score_invoice (env : Env) (invoice_id po_number : String) :
    Except String ScoreResult :=
  let linked := build_links env.rand env.inv_agg env.po
  let feats := engineer_features env.rand linked
  let row := feats.filter (fun r =>
    r.invoice_id == invoice_id && r.po_number == some po_number)
  match row with
  | [] => .ok (.notFound "No feature row for given (invoice_id, po_number).")
  | r0 :: _ =>
    let cols := selectCols env.clf feats
    match row.mapM (fun r => cols.mapM (featureValue r)) with
    | none => .error "KeyError: unknown feature column"
    | some X =>
      let proba := env.clf.predict_proba X
      let status := if 1/2 ≤ proba then "mismatch" else "match"
      .ok (.found status proba
        { amount_delta := some (r0.amount_delta_abs.valD 0)
          vendor_match := some (r0.vendor_match != 0)
          po_missing := some (r0.po_missing != 0)
          has_grn := some (r0.has_grn != 0)
          days_delta := some (r0.days_delta.valD 0) })

/-! ## Decision policy and orchestration (`src/agent/agent_graph.py`) -/

/-- `MatchResult` (`src/agent/agent_graph.py` lines 14–19). -/
structure MatchResult where
  status : String
  confidence : ℚ
  facts : FactsDict
  explanation : String
deriving DecidableEq, Repr, Inhabited

/-- Two-decimal fixed-point rendering of a rational, standing in for
Python's `f"{x:.2f}"` (the tie-rounding mode of binary floats is not
observable at the granularity of any claim). -/
def fmt2 (q : ℚ) : String :=
  let c : ℤ := round (q * 100)
  let sgn := if c < 0 then "-" else ""
  let a := c.natAbs
  let r := a % 100
  sgn ++ toString (a / 100) ++ "." ++
    (if r < 10 then "0" ++ toString r else toString r)

/-- The issue bullets of `build_explanation`
(`src/agent/agent_graph.py` lines 56–69), in source order. -/
def explanationIssues (facts : FactsDict) : List String :=
  (if facts.po_missing.getD false then ["PO reference was not found"] else []) ++
  (if !(facts.vendor_match.getD true) then
    ["Vendor on invoice does not match vendor on PO"] else []) ++
  (if 1/100 < facts.amount_delta.getD 0 then
    ["Amount discrepancy of " ++ fmt2 (facts.amount_delta.getD 0)] else []) ++
  (if !(facts.has_grn.getD true) then ["No GRN found for this PO"] else []) ++
  (if 30 < |facts.days_delta.getD 0| then
    ["Invoice timing concern: " ++ toString |facts.days_delta.getD 0| ++
     " days from GRN"] else [])

/-- `build_explanation` (`src/agent/agent_graph.py` lines 54–82): a pure
template over `(facts, status, confidence)`. -/
def build_explanation (facts : FactsDict) (status : String)
    (confidence : ℚ) : String :=
  let issues := explanationIssues facts
  if status == "mismatch" then
    if issues ≠ [] then
      "Mismatch detected: " ++ String.intercalate "; " issues ++
      ". Confidence: " ++ fmt2 confidence
    else
      "Model detected potential mismatch (confidence: " ++ fmt2 confidence ++
      "). Manual review recommended."
  else if status == "partial" then
    "Uncertain match requiring review (confidence: " ++ fmt2 confidence ++
    "). " ++ (if issues ≠ [] then String.intercalate "; " issues
              else "Model suggests possible issues.")
  else
    if issues ≠ [] then
      "Match confirmed despite minor issues: " ++
      String.intercalate "; " issues ++ ". Confidence: " ++ fmt2 confidence
    else
      "Clean match with no material differences. Confidence: " ++
      fmt2 confidence

/-- `has_material_issues` (`src/agent/agent_graph.py` lines 31–36):
`facts.get("po_missing", False) or not facts.get("vendor_match", True) or
facts.get("amount_delta", 0) > 0.01 or not facts.get("has_grn", True)`. -/
def has_material_issues (facts : FactsDict) : Bool :=
  facts.po_missing.getD false || !(facts.vendor_match.getD true) ||
  decide (1/100 < facts.amount_delta.getD 0) || !(facts.has_grn.getD true)

/-- The ordered status rules of `call_matcher`
(`src/agent/agent_graph.py` lines 38–50), first match wins. -/
def decision_policy (facts : FactsDict) (mismatch_prob : ℚ) : String × ℚ :=
  if has_material_issues facts then ("mismatch", mismatch_prob)
  else if 4/5 ≤ mismatch_prob then ("mismatch", mismatch_prob)
  else if 3/5 ≤ mismatch_prob then ("partial", mismatch_prob)
  else ("match", 1 - mismatch_prob)

/-- `call_matcher` (`src/agent/agent_graph.py` lines 21–53): run
`score_invoice`; a pair with no feature row yields the fixed partial
result with an empty facts dict; otherwise apply the ordered rules to the
model's mismatch probability and the returned facts. -/
def call_matcher (env : Env) (invoice_id po_number : String) :
    Except String MatchResult :=
  match score_invoice env invoice_id po_number with
  | .error e => .error e
  | .ok (.notFound _) =>
    .ok ⟨"partial", 1/2, emptyFacts, "No features available for this pair."⟩
  | .ok (.found _ proba facts) =>
    let sc := decision_policy facts proba
    .ok ⟨sc.1, sc.2, facts, build_explanation facts sc.1 sc.2⟩

/-- The issue bullets of `draft_dispute_email`
(`src/agent/agent_graph.py` lines 89–104). -/
def emailIssues (facts : FactsDict) : List String :=
  (if facts.po_missing.getD false then
    ["- PO reference could not be located in our system"] else []) ++
  (if !(facts.vendor_match.getD true) then
    ["- Vendor information does not match our PO records"] else []) ++
  (if 1/100 < facts.amount_delta.getD 0 then
    ["- Amount discrepancy of $" ++ fmt2 (facts.amount_delta.getD 0) ++
     " detected"] else []) ++
  (if !(facts.has_grn.getD true) then
    ["- No goods receipt (GRN) found for the referenced PO"] else []) ++
  (if 30 < |facts.days_delta.getD 0| then
    ["- Timing discrepancy: Invoice received " ++
     toString |facts.days_delta.getD 0| ++ " days after goods receipt"]
   else [])

/-- `draft_dispute_email` (`src/agent/agent_graph.py` lines 86–147):
a deterministic template whose tone, deadline and hold wording are
selected by the match status. -/
def draft_dispute_email (vendor_name invoice_id po_number : String)
    (facts : FactsDict) (match_status : String) : String :=
  let issues := emailIssues facts
  let tone :=
    if match_status == "mismatch" then
      ("URGENT: Invoice Discrepancy",
       "We have identified significant discrepancies that require immediate attention:",
       "Please provide corrected documentation or explanation within 5 business days. Payment is currently on hold.")
    else if match_status == "partial" then
      ("Review Required",
       "We are reviewing your invoice and need clarification on the following items:",
       "Please review and provide supporting documentation or confirmation within 7 business days.")
    else
      ("Clarification Requested",
       "We are processing your invoice and would appreciate clarification on minor items:",
       "Please provide any additional documentation at your convenience. This will not delay payment processing.")
  let issues_text :=
    if issues ≠ [] then String.intercalate "\n" issues
    else "- General compliance review as part of our standard process"
  "Subject: " ++ tone.1 ++ " - Invoice " ++ invoice_id ++ " / PO " ++
  po_number ++ "\n\nDear " ++ vendor_name ++ ",\n\n" ++ tone.2.1 ++ "\n\n" ++
  issues_text ++ "\n\nInvoice Details:\n- Invoice ID: " ++ invoice_id ++
  "\n- PO Number: " ++ po_number ++ "\n- Amount Delta: $" ++
  fmt2 (facts.amount_delta.getD 0) ++ "\n- Vendor Match: " ++
  (if facts.vendor_match.getD true then "Yes" else "No") ++
  "\n- GRN Available: " ++ (if facts.has_grn.getD true then "Yes" else "No") ++
  "\n- PO Status: " ++
  (if !(facts.po_missing.getD false) then "Found" else "Missing") ++
  "\n\n" ++ tone.2.2 ++
  "\n\nIf you have any questions, please contact our Accounts Payable team at ap@acme-manufacturing.com or call (555) 123-4567.\n\nBest regards,\nAccounts Payable Department\nAcme Manufacturing\n"

/-! ## Guardrail gate (`src/agent/agent_graph.py`, lines 149–170) -/

/-- A dynamically typed Python argument as passed through
`guardrail_tool_call(tool_name, *args)`. -/
inductive PyVal where
  | str (s : String)
  | dict (d : FactsDict)
  | num (q : ℚ)
deriving DecidableEq, Repr, Inhabited

/-- `isinstance(arg, str)`. -/
def PyVal.isStr : PyVal → Bool
  | .str _ => true
  | _ => false

/-- `str(...)` as an f-string renders an argument. -/
def PyVal.toDisplay : PyVal → String
  | .str s => s
  | .dict _ => "{...}"
  | .num q => toString q

/-- The names of `ALLOWED_TOOLS` (`src/agent/agent_graph.py` line 150). -/
def ALLOWED_TOOL_NAMES : List String := ["matcher", "email_drafter"]

/-- The error taxonomy of the guardrail: the two `assert` classes and the
`RuntimeError` wrapper that names the failing capability. -/
inductive GuardrailError where
  | toolNotPermitted (name : String)
  | toolArgument (msg : String)
  | toolExecution (tool : String) (msg : String)
deriving DecidableEq, Repr, Inhabited

/-- A successful dispatch result: a matcher `MatchResult` or a drafted
email body. -/
inductive ToolResult where
  | matcherResult (mr : MatchResult)
  | emailResult (body : String)
deriving DecidableEq, Repr, Inhabited

/-- `guardrail_tool_call` (`src/agent/agent_graph.py` lines 152–170):
assert the capability name against the fixed allow-list; for `matcher`
assert at least 4 arguments, all strings; for `email_drafter` assert at
least 5 arguments with a dict at index 3 and a valid status at index 4;
then dispatch inside `try`, wrapping any exception — including the
`TypeError` a call with surplus positional arguments raises — into a
uniform tool-execution error naming the capability. -/
def guardrail_tool_call (env : Env) (tool_name : String)
    (args : List PyVal) : Except GuardrailError ToolResult :=
  if tool_name ∉ ALLOWED_TOOL_NAMES then
    .error (.toolNotPermitted tool_name)
  else if tool_name == "matcher" then
    if args.length < 4 then
      .error (.toolArgument
        "Matcher requires: invoice_id, po_number, data_dir, model_path")
    else if !((args.take 4).all PyVal.isStr) then
      .error (.toolArgument "All matcher args must be strings")
    else
      match args with
      | [.str i, .str p, .str _, .str _] =>
        (match call_matcher env i p with
         | .ok mr => .ok (.matcherResult mr)
         | .error e =>
           .error (.toolExecution "matcher" ("execution failed: " ++ e)))
      | _ =>
        .error (.toolExecution "matcher"
          "execution failed: TypeError: too many positional arguments")
  else
    if args.length < 5 then
      .error (.toolArgument
        "Email drafter requires: vendor_name, invoice_id, po_number, facts, status")
    else if !(match args[3]? with
              | some (PyVal.dict _) => true
              | _ => false) then
      .error (.toolArgument "Facts must be a dictionary")
    else if !(match args[4]? with
              | some (PyVal.str s) => decide (s ∈ ["match", "partial", "mismatch"])
              | _ => false) then
      .error (.toolArgument "Invalid status")
    else
      match args with
      | [v, i, p, .dict f, .str st] =>
        .ok (.emailResult
          (draft_dispute_email v.toDisplay i.toDisplay p.toDisplay f st))
      | _ =>
        .error (.toolExecution "email_drafter"
          "execution failed: TypeError: too many positional arguments")

/-! ## Orchestration nodes (`src/agent/agent_graph.py`, lines 172–244) -/

/-- A task as `planner_node` emits it. -/
structure TaskIn where
  invoice_id : String
  po_number : String
  vendor_name : String
deriving DecidableEq, Repr, Inhabited

/-- A task after `reconcile_node` annotated it. -/
structure Task where
  invoice_id : String
  po_number : String
  vendor_name : String
  match_result : MatchResult
  needs_email : Bool
  email_reason : String
deriving DecidableEq, Repr, Inhabited

/-- The body of the `reconcile_node` loop for one task
(`src/agent/agent_graph.py` lines 184–204): invoke the matcher through the
guardrail, then set `needs_email` and `email_reason` by the status and, for
a remaining status, by `confidence < min_conf`. The matcher dispatch never
returns an email body; the fallthrough branch is unreachable. -/
def reconcileTask (env : Env) (min_conf : ℚ) (t : TaskIn) :
    Except GuardrailError Task :=
  match guardrail_tool_call env "matcher"
      [.str t.invoice_id, .str t.po_number,
       .str env.data_dir, .str env.model_path] with
  | .error e => .error e
  | .ok (.emailResult _) =>
    .error (.toolExecution "matcher" "unreachable: non-matcher result")
  | .ok (.matcherResult mr) =>
    let nr : Bool × String :=
      if mr.status == "mismatch" then
        (true, "Material discrepancies detected")
      else if mr.status == "partial" then
        (true, "Uncertain match requires clarification")
      else if mr.confidence < min_conf then
        (true, "Low confidence match requires review")
      else (false, "Clean match - no action required")
    .ok ⟨t.invoice_id, t.po_number, t.vendor_name, mr, nr.1, nr.2⟩

/-- `reconcile_node` (`src/agent/agent_graph.py` lines 181–206): the loop
over the planned tasks; an exception escaping the guardrail aborts the
batch (the spec's noted gap). `min_conf` is `context.get("min_conf", 0.75)`
— `agent_run` sets it to `0.75`. -/
def reconcile_node (env : Env) (min_conf : ℚ) (tasks : List TaskIn) :
    Except GuardrailError (List Task) :=
  tasks.mapM (reconcileTask env min_conf)

/-- The summary dict built by `approval_gate`. -/
structure Summary where
  total_invoices : ℕ
  clean_matches : ℕ
  partial_matches : ℕ
  mismatches : ℕ
  emails_to_send : ℕ
  approval_required : Bool
deriving DecidableEq, Repr, Inhabited

/-- The summary plus the terminal `context["status"]` string. -/
structure GateResult where
  summary : Summary
  status : String
deriving DecidableEq, Repr, Inhabited

/-- `approval_gate` (`src/agent/agent_graph.py` lines 224–244): aggregate
counts over all tasks, require approval when any email is needed or any
mismatch exists, and set the terminal status string — which the source
spells `"APPROVAL_AWAITING"`. -/
def approval_gate (tasks : List Task) : GateResult :=
  let clean := tasks.countP (fun t => t.match_result.status == "match")
  let partial_matches :=
    tasks.countP (fun t => t.match_result.status == "partial")
  let mismatches := tasks.countP (fun t => t.match_result.status == "mismatch")
  let emails_needed := tasks.countP (fun t => t.needs_email)
  let required := decide (0 < emails_needed) || decide (0 < mismatches)
  { summary :=
      { total_invoices := tasks.length
        clean_matches := clean
        partial_matches := partial_matches
        mismatches := mismatches
        emails_to_send := emails_needed
        approval_required := required }
    status := if required then "APPROVAL_AWAITING" else "COMPLETED" }

/-! ## Concrete instances for evaluating the embedding

Small concrete datasets, random streams and classifier stubs used by the
witness and counterexample theorems below. `randHalf` is a stream on which
none of the perturbation masks fires (every draw is `1/2`, above every
threshold); `randTenth` is a stream on which the `< 0.15` link-break mask
fires on every row. -/

/-- A stream whose draws all miss every perturbation threshold. -/
def randHalf : ℕ → ℚ := fun _ => 1/2

/-- A stream whose draws are all below the `0.15` link-break threshold. -/
def randTenth : ℕ → ℚ := fun _ => 1/10

/-- An invoice that exactly matches `po0` on the join keys. -/
def inv0 : AggregatedInvoice :=
  { invoice_id := "INV0001", vendor_id := "V1",
    vendor_name := some "Acme Supplies Ltd", currency := "USD",
    invoice_total := some 100, line_count := 1, max_qty := some 1,
    avg_unit_price := some 100, invoice_date := some 10 }

/-- A purchase order matching `inv0` exactly on
`(candidate_po, vendor_id, currency)`. -/
def po0 : PurchaseOrderRecord :=
  { po_number := "PO0001", vendor_id := "V1",
    vendor_name := some "Acme Supplies Ltd", currency := "USD",
    po_total := some 90, po_date := some 5, grn_number := some "GRN1",
    grn_date := some 7 }

/-- A classifier artifact carrying a valid single-column feature list and
a constant mismatch probability of `1/2`. -/
def clfHalf : Classifier :=
  { features_used := some ["po_missing"], predict_proba := fun _ => 1/2 }

/-- An environment binding the paths to the one-invoice dataset. -/
def env0 : Env :=
  { data_dir := "./data", model_path := "./reports/matcher_model.pkl",
    inv_agg := [inv0], po := [po0], clf := clfHalf, rand := randHalf }

/-- `env0` with an artifact whose embedded feature list names a column the
feature table does not have, so that prediction raises a `KeyError`. -/
def envBadCols : Env :=
  { env0 with clf := { features_used := some ["bogus_column"],
                       predict_proba := fun _ => 1/2 } }

/-- An invoice whose total is below its PO's total (signed delta `-50`). -/
def inv9 : AggregatedInvoice :=
  { inv0 with invoice_id := "INV0002", invoice_total := some 100 }

/-- The PO for `inv9`, with `po_total = 150 > invoice_total`. -/
def po9 : PurchaseOrderRecord :=
  { po0 with po_number := "PO0002", po_total := some 150 }

/-- Environment for the under-billed invoice. -/
def env9 : Env := { env0 with inv_agg := [inv9], po := [po9] }

/-- A clean exact match (equal totals, GRN present, same vendor) scored
with a constant mismatch probability of `1/10`. -/
def env5 : Env :=
  { env0 with
    inv_agg := [{ inv0 with invoice_total := some 90 }],
    clf := { features_used := some ["po_missing"],
             predict_proba := fun _ => 1/10 } }

/-- The single planned task of the `env5` batch. -/
def taskIn0 : TaskIn :=
  { invoice_id := "INV0001", po_number := "PO0001",
    vendor_name := "Acme Supplies Ltd" }

/-- The reconciled batch of `env5`, evaluated. -/
def out5 : List Task :=
  (reconcile_node env5 (3/4) [taskIn0]).toOption.getD []

/-- The match result `env0` produces, evaluated. -/
def mr0 : MatchResult :=
  (call_matcher env0 "INV0001" "PO0001").toOption.getD default

/-- The facts dict `env9` produces for its single pair, evaluated. -/
def facts9 : FactsDict :=
  match score_invoice env9 "INV0002" "PO0002" with
  | .ok (.found _ _ f) => f
  | _ => default

/-- The status/confidence `env9` produces, evaluated. -/
def status9 : String :=
  match score_invoice env9 "INV0002" "PO0002" with
  | .ok (.found st _ _) => st
  | _ => ""

/-- See `status9`. -/
def conf9 : ℚ :=
  match score_invoice env9 "INV0002" "PO0002" with
  | .ok (.found _ c _) => c
  | _ => 0

/-- A linked pair with a present invoice total and a *zero* PO total: the
input refuting the claim that `amount_delta_pct` is `0.0` whenever
`po_total` is null or zero. -/
def pairZeroPo : LinkedPair :=
  { invoice_id := "INV0100", vendor_id := "V1",
    vendor_name_inv := some "Acme Supplies Ltd", currency := "USD",
    invoice_total := some 100, line_count := 1, max_qty := some 1,
    avg_unit_price := some 100, invoice_date := some 10,
    candidate_po := "PO0100", po_number := some "PO0100",
    vendor_name_po := some "Acme Supplies Ltd", po_total := some 0,
    po_date := some 5, grn_number := some "GRN2", grn_date := some 7 }

/-- A linked pair with a null PO total. -/
def pairNullPo : LinkedPair :=
  { pairZeroPo with invoice_id := "INV0101", candidate_po := "PO0101",
                    po_number := some "PO0101", po_total := none }

/-- A degenerate linked pair: missing vendor names, null totals,
no parseable dates, no GRN. -/
def pairWeird : LinkedPair :=
  { invoice_id := "INV0200", vendor_id := "V2", vendor_name_inv := none,
    currency := "EUR", invoice_total := none, line_count := 0,
    max_qty := none, avg_unit_price := none, invoice_date := none,
    candidate_po := "PO0200", po_number := none, vendor_name_po := none,
    po_total := none, po_date := none, grn_number := none, grn_date := none }

/-- The feature row `engineer_features` computes for `pairWeird`. -/
def rowWeird : FeatureRow :=
  (engineer_features randHalf [pairWeird]).head?.getD default

/-- A task carrying a mismatch verdict, for exercising the approval gate. -/
def taskMismatch : Task :=
  { invoice_id := "INV0001", po_number := "PO0001",
    vendor_name := "Acme Supplies Ltd",
    match_result := { status := "mismatch", confidence := 9/10,
                      facts := emptyFacts, explanation := "e" },
    needs_email := true, email_reason := "Material discrepancies detected" }

/-- A concrete facts dict with `po_missing = true`. -/
def factsPoMissing : FactsDict :=
  { amount_delta := some 0, vendor_match := some true,
    po_missing := some true, has_grn := some true, days_delta := some 0 }

/-! ## Shared lemmas -/

theorem PFloat.isVal_replaceInfNan (x : PFloat) :
    x.replaceInfNan.isVal = true := by
  cases x <;> rfl

/-- The engineered table is the row-wise map over the enumerated input. -/
theorem engineer_features_getElem? (rand : ℕ → ℚ) (ps : List LinkedPair)
    (i : ℕ) :
    (engineer_features rand ps)[i]? =
      ps[i]?.map (engineerRow rand ps.length i) := by
  simp only [engineer_features, List.getElem?_map, List.getElem?_enum,
    Option.map_map]
  cases ps[i]? <;> rfl

/-- Membership inversion for `Except`-valued `mapM`. -/
theorem mapM_ok_mem {α β : Type} {ε : Type} (f : α → Except ε β) :
    ∀ (l : List α) (out : List β), l.mapM f = .ok out →
      ∀ b ∈ out, ∃ a ∈ l, f a = .ok b := by
  intro l
  induction l with
  | nil =>
    intro out h b hb
    simp only [List.mapM_nil, pure, Except.pure, Except.ok.injEq] at h
    subst h
    simp at hb
  | cons a as ih =>
    intro out h b hb
    rw [List.mapM_cons] at h
    cases hfa : f a with
    | error e =>
      rw [hfa] at h
      simp [Bind.bind, Except.bind] at h
    | ok x =>
      rw [hfa] at h
      cases hms : as.mapM f with
      | error e =>
        rw [hms] at h
        simp [Bind.bind, Except.bind] at h
      | ok xs =>
        rw [hms] at h
        simp only [Bind.bind, Except.bind, pure, Except.pure,
          Except.ok.injEq] at h
        subst h
        rcases List.mem_cons.mp hb with rfl | hb2
        · exact ⟨a, List.mem_cons_self a as, hfa⟩
        · obtain ⟨a2, ha2, hfa2⟩ := ih xs hms b hb2
          exact ⟨a2, List.mem_cons_of_mem a ha2, hfa2⟩

/-- Inversion of a successful found-branch scoring call: the filtered
table is nonempty, the confidence is the classifier's output on some
feature matrix, the status is the 0.5-thresholded verdict, and the facts
are the five canonical entries read off the first matching row. -/
theorem score_invoice_found_inv (env : Env) (ivc po st : String) (c : ℚ)
    (f : FactsDict) (h : score_invoice env ivc po = .ok (.found st c f)) :
    ∃ r0 rest,
      (engineer_features env.rand
          (build_links env.rand env.inv_agg env.po)).filter
        (fun r => r.invoice_id == ivc && r.po_number == some po) =
        r0 :: rest ∧
      (∃ X, c = env.clf.predict_proba X) ∧
      st = (if 1/2 ≤ c then "mismatch" else "match") ∧
      f = ⟨some (r0.amount_delta_abs.valD 0), some (r0.vendor_match != 0),
           some (r0.po_missing != 0), some (r0.has_grn != 0),
           some (r0.days_delta.valD 0)⟩ := by
  simp only [score_invoice] at h
  split at h
  · simp at h
  next r0 rest heq =>
    split at h
    · simp at h
    next X hX =>
      simp only [Except.ok.injEq, ScoreResult.found.injEq] at h
      obtain ⟨hst, hc, hf⟩ := h
      exact ⟨r0, rest, heq, ⟨X, hc.symm⟩, by rw [← hc]; exact hst.symm,
        hf.symm⟩

/-- Inversion of a successful `call_matcher`: either the fixed
partial/empty-facts result of a pair with no feature row, or the ordered
rules applied to a found score. -/
theorem call_matcher_ok_inv (env : Env) (ivc po : String) (mr : MatchResult)
    (h : call_matcher env ivc po = .ok mr) :
    mr = ⟨"partial", 1/2, emptyFacts,
          "No features available for this pair."⟩ ∨
    ∃ st proba facts,
      score_invoice env ivc po = .ok (.found st proba facts) ∧
      mr = ⟨(decision_policy facts proba).1, (decision_policy facts proba).2,
            facts,
            build_explanation facts (decision_policy facts proba).1
              (decision_policy facts proba).2⟩ := by
  simp only [call_matcher] at h
  split at h
  · simp at h
  · simp only [Except.ok.injEq] at h
    exact Or.inl h.symm
  next st' proba facts hs =>
    simp only [Except.ok.injEq] at h
    exact Or.inr ⟨st', proba, facts, hs, h.symm⟩

/-- The ordered rules return one of the three verdicts, with the
confidence the rules assign. -/
theorem decision_policy_cases (facts : FactsDict) (p : ℚ) :
    decision_policy facts p = ("mismatch", p) ∨
    decision_policy facts p = ("partial", p) ∨
    decision_policy facts p = ("match", 1 - p) := by
  rw [decision_policy]
  split_ifs <;> simp

/-- Every successful matcher result carries one of the three statuses. -/
theorem call_matcher_status_mem (env : Env) (ivc po : String)
    (mr : MatchResult) (h : call_matcher env ivc po = .ok mr) :
    mr.status = "match" ∨ mr.status = "partial" ∨ mr.status = "mismatch" := by
  rcases call_matcher_ok_inv env ivc po mr h with hmr | ⟨st, proba, facts, _, hmr⟩
  · rw [hmr]; right; left; rfl
  · rw [hmr]
    rcases decision_policy_cases facts proba with hd | hd | hd <;>
      rw [hd] <;> simp

/-- With a classifier honouring the `predict_proba ∈ [0,1]` contract,
every successful matcher result has confidence in `[0,1]`. -/
theorem call_matcher_confidence_bounds (env : Env) (ivc po : String)
    (mr : MatchResult)
    (hclf : ∀ X, 0 ≤ env.clf.predict_proba X ∧ env.clf.predict_proba X ≤ 1)
    (h : call_matcher env ivc po = .ok mr) :
    0 ≤ mr.confidence ∧ mr.confidence ≤ 1 := by
  rcases call_matcher_ok_inv env ivc po mr h with hmr |
    ⟨st, proba, facts, hs, hmr⟩
  · rw [hmr]; norm_num
  · obtain ⟨r0, rest, _, ⟨X, hc⟩, _, _⟩ :=
      score_invoice_found_inv env ivc po st proba facts hs
    obtain ⟨h0, h1⟩ := hclf X
    rw [← hc] at h0 h1
    rw [hmr]
    rcases decision_policy_cases facts proba with hd | hd | hd <;>
      rw [hd] <;> constructor <;> simp <;> linarith

/-- Dispatching the matcher through the guardrail with its four string
arguments passes the asserts and wraps any exception of the capability. -/
theorem guardrail_matcher_dispatch (env : Env) (i p d m : String) :
    guardrail_tool_call env "matcher" [.str i, .str p, .str d, .str m] =
      match call_matcher env i p with
      | .ok mr => .ok (.matcherResult mr)
      | .error e =>
        .error (.toolExecution "matcher" ("execution failed: " ++ e)) := by
  rw [guardrail_tool_call]
  norm_num [ALLOWED_TOOL_NAMES, PyVal.isStr]

/-- Inversion of one reconciled task: its match result came from the
guardrailed matcher, and `needs_email` / `email_reason` follow the
status-then-confidence triage of `reconcile_node`. -/
theorem reconcileTask_ok_inv (env : Env) (mc : ℚ) (t : TaskIn) (task : Task)
    (h : reconcileTask env mc t = .ok task) :
    ∃ mr, call_matcher env t.invoice_id t.po_number = .ok mr ∧
      task.match_result = mr ∧
      (task.needs_email = true ↔
        (mr.status = "mismatch" ∨ mr.status = "partial" ∨
         mr.confidence < mc)) ∧
      task.email_reason ∈
        ["Material discrepancies detected",
         "Uncertain match requires clarification",
         "Low confidence match requires review",
         "Clean match - no action required"] := by
  rw [reconcileTask, guardrail_matcher_dispatch] at h
  cases hcm : call_matcher env t.invoice_id t.po_number with
  | error e => rw [hcm] at h; simp at h
  | ok mr =>
    rw [hcm] at h
    simp only [Except.ok.injEq] at h
    subst h
    refine ⟨mr, rfl, rfl, ?_, ?_⟩
    · by_cases h1 : mr.status = "mismatch"
      · simp [h1]
      · by_cases h2 : mr.status = "partial"
        · simp [h1, h2]
        · by_cases h3 : mr.confidence < mc
          · simp [h1, h2, h3]
          · simp [h1, h2, h3]
    · by_cases h1 : mr.status = "mismatch"
      · simp [h1]
      · by_cases h2 : mr.status = "partial"
        · simp [h1, h2]
        · by_cases h3 : mr.confidence < mc
          · simp [h1, h2, h3]
          · simp [h1, h2, h3]

/-- The engineered amount columns: `amount_delta` is always a finite value
and `amount_delta_abs` is its absolute value. -/
theorem engineerRow_amount_abs (rand : ℕ → ℚ) (n i : ℕ) (r : LinkedPair) :
    ∃ q, (engineerRow rand n i r).amount_delta = .val q ∧
         (engineerRow rand n i r).amount_delta_abs = .val |q| := by
  rcases hit : r.invoice_total with _ | a <;>
    rcases hpt : r.po_total with _ | b <;>
      simp [engineerRow, PFloat.ofOpt, PFloat.sub, PFloat.fillna,
        PFloat.abs, PFloat.replaceInfNan, hit, hpt]

/-- The clipped-then-replaced percentage column always holds a value in
the clip interval `[-1, 1]`. -/
theorem clip_replace_bounds (y : PFloat) (q : ℚ)
    (h : ((y.clip (-1) 1).replaceInfNan) = .val q) : -1 ≤ q ∧ q ≤ 1 := by
  cases y with
  | val x =>
    simp only [PFloat.clip, PFloat.replaceInfNan, PFloat.val.injEq] at h
    subst h
    exact ⟨le_max_left _ _, max_le (by norm_num) (min_le_left _ _)⟩
  | nan =>
    simp only [PFloat.clip, PFloat.replaceInfNan, PFloat.val.injEq] at h
    subst h
    norm_num
  | pinf =>
    simp only [PFloat.clip, PFloat.replaceInfNan, PFloat.val.injEq] at h
    subst h
    norm_num
  | ninf =>
    simp only [PFloat.clip, PFloat.replaceInfNan, PFloat.val.injEq] at h
    subst h
    norm_num

/-! ## Claim theorems -/

/-- C2: the decision policy is the ordered rule list, first match wins:
the material-issue disjunction (`po_missing`, `not vendor_match`,
`amount_delta > 0.01` — the facts entry the spec calls `amount_delta_abs`
— `not has_grn`) forces `mismatch` with confidence `p`; otherwise
`p ≥ 0.8` gives `mismatch` with confidence `p`, `0.6 ≤ p < 0.8` gives
`partial` with confidence `p`, and `p < 0.6` gives `match` with
confidence `1 - p`; in particular `po_missing = true` with `p = 0.1`
yields `mismatch`. -/
theorem C2_decision_policy_ordered_rules (facts : FactsDict) (p : ℚ) :
    (has_material_issues facts = true ↔
      (facts.po_missing.getD false = true ∨
       facts.vendor_match.getD true = false ∨
       1/100 < facts.amount_delta.getD 0 ∨
       facts.has_grn.getD true = false)) ∧
    (has_material_issues facts = true →
      decision_policy facts p = ("mismatch", p)) ∧
    (has_material_issues facts = false → 4/5 ≤ p →
      decision_policy facts p = ("mismatch", p)) ∧
    (has_material_issues facts = false → p < 4/5 → 3/5 ≤ p →
      decision_policy facts p = ("partial", p)) ∧
    (has_material_issues facts = false → p < 3/5 →
      decision_policy facts p = ("match", 1 - p)) ∧
    (facts.po_missing = some true →
      decision_policy facts (1/10) = ("mismatch", 1/10)) := by
  refine ⟨?_, ?_, ?_, ?_, ?_, ?_⟩
  · simp only [has_material_issues, Bool.or_eq_true, decide_eq_true_eq,
      Bool.not_eq_true']
    tauto
  · intro h
    simp [decision_policy, h]
  · intro h hp
    simp [decision_policy, h, hp]
  · intro h hp4 hp3
    simp [decision_policy, h, not_le.mpr hp4, hp3]
  · intro h hp
    have hp4 : p < 4/5 := lt_of_lt_of_le hp (by norm_num)
    simp [decision_policy, h, not_le.mpr hp, not_le.mpr hp4]
  · intro h
    have hm : has_material_issues facts = true := by
      simp [has_material_issues, h]
    simp [decision_policy, hm]

/-- C2 witness: the rules at a concrete facts dict with
`po_missing = true` and `p = 0.1`. -/
theorem C2_decision_policy_witness :
    decision_policy factsPoMissing (1/10) = ("mismatch", 1/10) :=
  (C2_decision_policy_ordered_rules factsPoMissing (1/10)).2.2.2.2.2 rfl

/-- C4 counterexample: the claim says `amount_delta_pct` is `0.0`
whenever `po_total` is null *or zero*; but on a pair with
`po_total = 0` and `invoice_total = 100` the division produces `+inf`,
which `fillna` leaves in place and `np.clip` then maps to `1.0`, so
`engineer_features` reports `amount_delta_pct = 1.0`, not `0.0`. -/
theorem C4_amount_pct_counterexample :
    pairZeroPo.po_total = some 0 ∧
    ((engineer_features randHalf [pairZeroPo]).map
        (fun r => r.amount_delta_pct)) = [.val 1] ∧
    PFloat.val 1 ≠ PFloat.val 0 := by
  refine ⟨rfl, ?_, by decide⟩
  with_unfolding_all decide

/-- C4 as amended: `amount_delta_pct` is `amount_delta / po_total`
clipped to `[-1, 1]` when `po_total` is a nonzero number; it is `0.0`
when `po_total` is null, and when `po_total` is zero it is `0.0` only for
a zero `amount_delta`, while a nonzero `amount_delta` gives the clip
bound `1.0` (positive) or `-1.0` (negative); the result always lies in
`[-1, 1]`; and a pair with null `po_total` has `amount_delta = 0.0`,
`amount_over_tolerance = 0` and `amount_pct_over_tolerance = 0`. -/
theorem C4_amount_pct_amended (rand : ℕ → ℚ) (ps : List LinkedPair)
    (i : ℕ) (pr : LinkedPair) (hp : ps[i]? = some pr) :
    ∃ r, (engineer_features rand ps)[i]? = some r ∧
      (pr.po_total = none →
        r.amount_delta = .val 0 ∧ r.amount_delta_pct = .val 0 ∧
        r.amount_over_tolerance = 0 ∧ r.amount_pct_over_tolerance = 0) ∧
      (∀ b : ℚ, pr.po_total = some b → b ≠ 0 →
        ∃ d, r.amount_delta = .val d ∧
          r.amount_delta_pct = .val (max (-1) (min 1 (d / b)))) ∧
      (pr.po_total = some 0 →
        ∀ d : ℚ, r.amount_delta = .val d →
          r.amount_delta_pct =
            .val (if d = 0 then 0 else if 0 < d then 1 else -1)) ∧
      (∀ q : ℚ, r.amount_delta_pct = .val q → -1 ≤ q ∧ q ≤ 1) := by
  refine ⟨engineerRow rand ps.length i pr, ?_, ?_, ?_, ?_, ?_⟩
  · rw [engineer_features_getElem?, hp]; rfl
  · intro hpt
    rcases hit : pr.invoice_total with _ | a <;>
      simp [engineerRow, PFloat.ofOpt, PFloat.sub, PFloat.fillna,
        PFloat.div, PFloat.clip, PFloat.abs, PFloat.gtQ,
        PFloat.replaceInfNan, hit, hpt]
  · intro b hpt hb
    rcases hit : pr.invoice_total with _ | a
    · refine ⟨0, ?_, ?_⟩ <;>
        simp [engineerRow, PFloat.ofOpt, PFloat.sub, PFloat.fillna,
          PFloat.div, PFloat.clip, PFloat.replaceInfNan, hit, hpt, hb]
    · refine ⟨a - b, ?_, ?_⟩ <;>
        simp [engineerRow, PFloat.ofOpt, PFloat.sub, PFloat.fillna,
          PFloat.div, PFloat.clip, PFloat.replaceInfNan, hit, hpt, hb]
  · intro hpt d hd
    rcases hit : pr.invoice_total with _ | a
    · have hd0 : d = 0 := by
        simp only [engineerRow, PFloat.ofOpt, PFloat.sub, PFloat.fillna,
          PFloat.replaceInfNan, hit, hpt, PFloat.val.injEq] at hd
        exact hd.symm
      subst hd0
      simp only [engineerRow, PFloat.ofOpt, PFloat.sub, PFloat.fillna,
        PFloat.div, PFloat.clip, PFloat.replaceInfNan, hit, hpt]
      norm_num [max_def, min_def]
    · have hda : d = a - 0 := by
        simp only [engineerRow, PFloat.ofOpt, PFloat.sub, PFloat.fillna,
          PFloat.replaceInfNan, hit, hpt, PFloat.val.injEq] at hd
        exact hd.symm
      rw [sub_zero] at hda
      subst hda
      rcases lt_trichotomy d 0 with hneg | hzero | hpos
      · simp only [engineerRow, PFloat.ofOpt, PFloat.sub, PFloat.fillna,
          PFloat.div, PFloat.clip, PFloat.replaceInfNan, hit, hpt]
        norm_num [hneg.ne, not_lt.mpr hneg.le]
      · subst hzero
        simp only [engineerRow, PFloat.ofOpt, PFloat.sub, PFloat.fillna,
          PFloat.div, PFloat.clip, PFloat.replaceInfNan, hit, hpt]
        norm_num [max_def, min_def]
      · simp only [engineerRow, PFloat.ofOpt, PFloat.sub, PFloat.fillna,
          PFloat.div, PFloat.clip, PFloat.replaceInfNan, hit, hpt]
        norm_num [hpos.ne', hpos]
  · intro q hq
    exact clip_replace_bounds _ q hq

/-- C4 witness: the amended statement applied to a concrete pair with a
null `po_total`. -/
theorem C4_amount_pct_amended_witness :
    ∃ r, (engineer_features randHalf [pairNullPo])[0]? = some r ∧
      (pairNullPo.po_total = none →
        r.amount_delta = .val 0 ∧ r.amount_delta_pct = .val 0 ∧
        r.amount_over_tolerance = 0 ∧ r.amount_pct_over_tolerance = 0) ∧
      (∀ b : ℚ, pairNullPo.po_total = some b → b ≠ 0 →
        ∃ d, r.amount_delta = .val d ∧
          r.amount_delta_pct = .val (max (-1) (min 1 (d / b)))) ∧
      (pairNullPo.po_total = some 0 →
        ∀ d : ℚ, r.amount_delta = .val d →
          r.amount_delta_pct =
            .val (if d = 0 then 0 else if 0 < d then 1 else -1)) ∧
      (∀ q : ℚ, r.amount_delta_pct = .val q → -1 ≤ q ∧ q ≤ 1) :=
  C4_amount_pct_amended randHalf [pairNullPo] 0 pairNullPo rfl

/-- C6 counterexample: on a batch containing a mismatch task the gate's
terminal status string is `"APPROVAL_AWAITING"`, not the
`"AWAITING_APPROVAL"` the claim names. -/
theorem C6_terminal_status_counterexample :
    taskMismatch.match_result.status = "mismatch" ∧
    (approval_gate [taskMismatch]).status = "APPROVAL_AWAITING" ∧
    (approval_gate [taskMismatch]).status ≠ "AWAITING_APPROVAL" := by
  refine ⟨rfl, ?_, ?_⟩ <;> with_unfolding_all decide

/-- C6 as amended: the summary reports the total task count and the
match/partial/mismatch/emails-needed counts, `approval_required` holds
exactly when some task needs an email or some task is a mismatch, and the
terminal status is the string `"APPROVAL_AWAITING"` (so spelled) in that
case and `"COMPLETED"` otherwise. -/
theorem C6_approval_gate_amended (tasks : List Task) :
    (approval_gate tasks).summary.total_invoices = tasks.length ∧
    (approval_gate tasks).summary.clean_matches =
      tasks.countP (fun t => t.match_result.status == "match") ∧
    (approval_gate tasks).summary.partial_matches =
      tasks.countP (fun t => t.match_result.status == "partial") ∧
    (approval_gate tasks).summary.mismatches =
      tasks.countP (fun t => t.match_result.status == "mismatch") ∧
    (approval_gate tasks).summary.emails_to_send =
      tasks.countP (fun t => t.needs_email) ∧
    ((approval_gate tasks).summary.approval_required = true ↔
      ((∃ t ∈ tasks, t.needs_email = true) ∨
       (∃ t ∈ tasks, t.match_result.status = "mismatch"))) ∧
    (approval_gate tasks).status =
      (if (approval_gate tasks).summary.approval_required = true
       then "APPROVAL_AWAITING" else "COMPLETED") := by
  refine ⟨rfl, rfl, rfl, rfl, rfl, ?_, ?_⟩
  · simp only [approval_gate, Bool.or_eq_true, decide_eq_true_eq,
      List.countP_pos_iff, beq_iff_eq]
  · simp only [approval_gate]

/-- C6 witness: the amended statement applied to the concrete
one-mismatch batch. -/
theorem C6_approval_gate_amended_witness :
    (approval_gate [taskMismatch]).summary.mismatches = 1 ∧
    ((approval_gate [taskMismatch]).summary.approval_required = true ↔
      ((∃ t ∈ [taskMismatch], t.needs_email = true) ∨
       (∃ t ∈ [taskMismatch], t.match_result.status = "mismatch"))) :=
  ⟨by with_unfolding_all decide,
   (C6_approval_gate_amended [taskMismatch]).2.2.2.2.2.1⟩

/-- C8: `engineer_features` is total — it yields one feature row per
linked pair, and on every row the six numeric feature columns hold finite
values: every `NaN`/infinite intermediate has been replaced by `0.0`
(missing vendor names, null totals and missing dates included, as the
witness exercises). -/
theorem C8_engineer_features_total (rand : ℕ → ℚ) (ps : List LinkedPair)
    (i : ℕ) (r : FeatureRow)
    (h : (engineer_features rand ps)[i]? = some r) :
    r.amount_delta.isVal = true ∧ r.amount_delta_abs.isVal = true ∧
    r.amount_delta_pct.isVal = true ∧ r.days_delta.isVal = true ∧
    r.days_since_grn.isVal = true ∧ r.vendor_similarity.isVal = true ∧
    (engineer_features rand ps).length = ps.length := by
  rw [engineer_features_getElem?] at h
  cases hp : ps[i]? with
  | none =>
    rw [hp] at h
    simp at h
  | some pr =>
    rw [hp] at h
    simp only [Option.map_some', Option.some.injEq] at h
    subst h
    refine ⟨?_, ?_, ?_, ?_, ?_, ?_,
      by simp [engineer_features, List.length_map, List.enum_length]⟩ <;>
    · simp only [engineerRow]
      exact PFloat.isVal_replaceInfNan _

/-- C1 divergence (code bug): `build_links`, exactly as `score_invoice`
invokes it, is not a pure exact-equality join — after the left merge it
seeds the random stream and nulls the PO columns of every row whose draw
is below `0.15`.  For an invoice with an exactly matching PO (equal
`candidate_po`, `vendor_id` and `currency`) whose row draws below the
threshold, the produced `LinkedPair` has its PO-derived fields null even
though an exact match exists; on a stream that misses the threshold the
same catalogs yield the intact join, so the output is not a function of
the two catalogs alone. -/
theorem C1_link_break_in_scoring_path (rand : ℕ → ℚ)
    (inv : AggregatedInvoice) (p : PurchaseOrderRecord)
    (hmatch : p.po_number = invoice_to_po_key inv.invoice_id)
    (hv : p.vendor_id = inv.vendor_id) (hc : p.currency = inv.currency)
    (hr : rand 0 < 3/20) :
    build_links rand [inv] [p] =
      [breakLink (mergeRow inv (invoice_to_po_key inv.invoice_id)
        (some p))] ∧
    (build_links rand [inv] [p]).map (·.po_number) = [none] ∧
    (∀ rand2 : ℕ → ℚ, ¬(rand2 0 < 3/20) →
      build_links rand2 [inv] [p] =
        [mergeRow inv (invoice_to_po_key inv.invoice_id) (some p)]) := by
  have h1 : build_links rand [inv] [p] =
      [breakLink (mergeRow inv (invoice_to_po_key inv.invoice_id)
        (some p))] := by
    simp [build_links, List.filter_cons, hmatch, hv, hc, List.enum, hr]
  refine ⟨h1, ?_, ?_⟩
  · rw [h1]; rfl
  · intro rand2 hr2
    simp [build_links, List.filter_cons, hmatch, hv, hc, List.enum, hr2]

/-- C1 witness: a concrete matching invoice/PO pair on a stream below the
threshold loses its PO fields; on a stream above it the join is intact. -/
theorem C1_link_break_witness :
    build_links randTenth [inv0] [po0] =
      [breakLink (mergeRow inv0 (invoice_to_po_key inv0.invoice_id)
        (some po0))] ∧
    (build_links randTenth [inv0] [po0]).map (·.po_number) = [none] ∧
    (∀ rand2 : ℕ → ℚ, ¬(rand2 0 < 3/20) →
      build_links rand2 [inv0] [po0] =
        [mergeRow inv0 (invoice_to_po_key inv0.invoice_id) (some po0)]) :=
  C1_link_break_in_scoring_path randTenth inv0 po0
    (by with_unfolding_all decide) rfl rfl (by norm_num [randTenth])

/-- C7: the guardrail admits exactly the two named capabilities; a
matcher invocation with two positional arguments fails the arity assert
with the argument error, independently of the environment and before any
matching logic runs; and an exception raised inside a dispatched
capability is wrapped into the uniform tool-execution error naming it. -/
theorem C7_guardrail_validation (env : Env) :
    (∀ name args, name ∉ ALLOWED_TOOL_NAMES →
      guardrail_tool_call env name args = .error (.toolNotPermitted name)) ∧
    (∀ a b : PyVal, guardrail_tool_call env "matcher" [a, b] =
      .error (.toolArgument
        "Matcher requires: invoice_id, po_number, data_dir, model_path")) ∧
    (∀ i p d m e, call_matcher env i p = .error e →
      guardrail_tool_call env "matcher" [.str i, .str p, .str d, .str m] =
        .error (.toolExecution "matcher" ("execution failed: " ++ e))) := by
  refine ⟨?_, ?_, ?_⟩
  · intro name args hname
    rw [guardrail_tool_call.eq_def, if_pos hname]
  · intro a b
    rw [guardrail_tool_call.eq_def]
    norm_num [ALLOWED_TOOL_NAMES]
  · intro i p d m e he
    rw [guardrail_matcher_dispatch, he]

/-- C7 witness: an unknown capability, an under-supplied matcher call and
a capability whose body raises, each at concrete inputs. -/
theorem C7_guardrail_validation_witness :
    guardrail_tool_call env0 "shell" [] =
      .error (.toolNotPermitted "shell") ∧
    guardrail_tool_call env0 "matcher" [.str "INV0001", .str "PO0001"] =
      .error (.toolArgument
        "Matcher requires: invoice_id, po_number, data_dir, model_path") ∧
    guardrail_tool_call envBadCols "matcher"
        [.str "INV0001", .str "PO0001", .str "./data", .str "m.pkl"] =
      .error (.toolExecution "matcher"
        ("execution failed: " ++ "KeyError: unknown feature column")) :=
  ⟨(C7_guardrail_validation env0).1 "shell" [] (by with_unfolding_all decide),
   (C7_guardrail_validation env0).2.1 (.str "INV0001") (.str "PO0001"),
   (C7_guardrail_validation envBadCols).2.2 "INV0001" "PO0001" "./data"
     "m.pkl" "KeyError: unknown feature column"
     (by with_unfolding_all decide)⟩

/-- C10: `score_invoice` is deterministic — two calls whose environments
agree on the loaded data tables, the loaded model artifact and the random
stream (which the hard-coded `np.random.seed(42)` fixes to the same
sequence on every call, making each perturbation mask a function of the
dataset size alone) return identical results for the same pair. -/
theorem C10_score_invoice_deterministic (e1 e2 : Env) (ivc po : String)
    (hd : e1.inv_agg = e2.inv_agg) (hp : e1.po = e2.po)
    (hc : e1.clf = e2.clf) (hr : e1.rand = e2.rand) :
    score_invoice e1 ivc po = score_invoice e2 ivc po := by
  simp only [score_invoice, hd, hp, hc, hr]

/-- C10 witness: determinism at a concrete environment and pair. -/
theorem C10_score_invoice_deterministic_witness :
    score_invoice env0 "INV0001" "PO0001" =
      score_invoice env0 "INV0001" "PO0001" :=
  C10_score_invoice_deterministic env0 env0 "INV0001" "PO0001"
    rfl rfl rfl rfl

/-- C8 witness: the totality statement at the degenerate pair with
missing vendor names, null totals and unparseable dates. -/
theorem C8_engineer_features_total_witness :
    rowWeird.amount_delta.isVal = true ∧
    rowWeird.amount_delta_abs.isVal = true ∧
    rowWeird.amount_delta_pct.isVal = true ∧
    rowWeird.days_delta.isVal = true ∧
    rowWeird.days_since_grn.isVal = true ∧
    rowWeird.vendor_similarity.isVal = true ∧
    (engineer_features randHalf [pairWeird]).length = [pairWeird].length :=
  C8_engineer_features_total randHalf [pairWeird] 0 rowWeird
    (by with_unfolding_all decide)

/-- C3: with a classifier honouring the `predict_proba ∈ [0,1]` contract,
every result the matcher capability produces — the no-feature-row result
included — has a status among the three enum values and a confidence in
`[0,1]`; its facts dict either carries all five canonical keys (every
found pair) or is the empty dict of the no-feature-row result, whose
`dict.get` reads supply exactly the canonical defaults. -/
theorem C3_match_result_invariants (env : Env) (ivc po : String)
    (mr : MatchResult)
    (hclf : ∀ X, 0 ≤ env.clf.predict_proba X ∧ env.clf.predict_proba X ≤ 1)
    (h : call_matcher env ivc po = .ok mr) :
    (mr.status = "match" ∨ mr.status = "partial" ∨
     mr.status = "mismatch") ∧
    (0 ≤ mr.confidence ∧ mr.confidence ≤ 1) ∧
    ((∃ a b c d e, mr.facts = ⟨some a, some b, some c, some d, some e⟩) ∨
     (mr.facts = emptyFacts ∧ mr.status = "partial")) ∧
    (emptyFacts.amount_delta.getD 0 = 0 ∧
     emptyFacts.vendor_match.getD true = true ∧
     emptyFacts.po_missing.getD false = false ∧
     emptyFacts.has_grn.getD true = true ∧
     emptyFacts.days_delta.getD 0 = 0) := by
  refine ⟨call_matcher_status_mem env ivc po mr h,
    call_matcher_confidence_bounds env ivc po mr hclf h, ?_,
    rfl, rfl, rfl, rfl, rfl⟩
  rcases call_matcher_ok_inv env ivc po mr h with hmr |
    ⟨st, proba, facts, hs, hmr⟩
  · right
    rw [hmr]
    exact ⟨rfl, rfl⟩
  · left
    obtain ⟨r0, rest, _, _, _, hf⟩ :=
      score_invoice_found_inv env ivc po st proba facts hs
    rw [hmr]
    exact ⟨_, _, _, _, _, hf⟩

/-- C3 witness: the invariants at the concrete result of `env0`. -/
theorem C3_match_result_invariants_witness :
    (mr0.status = "match" ∨ mr0.status = "partial" ∨
     mr0.status = "mismatch") ∧
    (0 ≤ mr0.confidence ∧ mr0.confidence ≤ 1) ∧
    ((∃ a b c d e, mr0.facts = ⟨some a, some b, some c, some d, some e⟩) ∨
     (mr0.facts = emptyFacts ∧ mr0.status = "partial")) ∧
    (emptyFacts.amount_delta.getD 0 = 0 ∧
     emptyFacts.vendor_match.getD true = true ∧
     emptyFacts.po_missing.getD false = false ∧
     emptyFacts.has_grn.getD true = true ∧
     emptyFacts.days_delta.getD 0 = 0) :=
  C3_match_result_invariants env0 "INV0001" "PO0001" mr0
    (fun X => by constructor <;> norm_num [env0, clfHalf])
    (by with_unfolding_all decide)

/-- C5: after the reconcile stage every task's `needs_email` holds exactly
when its status is `mismatch` or `partial`, or it is `match` with
confidence below `min_conf`; a matching status with confidence `0.9`
against `min_conf = 0.75` yields `needs_email = false`; and one of the
four `email_reason` strings is recorded in every case. -/
theorem C5_reconcile_email_policy (env : Env) (min_conf : ℚ)
    (tasks : List TaskIn) (out : List Task)
    (h : reconcile_node env min_conf tasks = .ok out) :
    ∀ t ∈ out,
      (t.needs_email = true ↔
        (t.match_result.status = "mismatch" ∨
         t.match_result.status = "partial" ∨
         (t.match_result.status = "match" ∧
          t.match_result.confidence < min_conf))) ∧
      t.email_reason ∈
        ["Material discrepancies detected",
         "Uncertain match requires clarification",
         "Low confidence match requires review",
         "Clean match - no action required"] ∧
      (t.match_result.status = "match" → t.match_result.confidence = 9/10 →
        min_conf = 3/4 → t.needs_email = false) := by
  intro t ht
  obtain ⟨ti, _, hrec⟩ := mapM_ok_mem _ tasks out h t ht
  obtain ⟨mr, hcm, hmr_eq, hne, hreason⟩ :=
    reconcileTask_ok_inv env min_conf ti t hrec
  have hstat := call_matcher_status_mem env ti.invoice_id ti.po_number mr hcm
  refine ⟨?_, hreason, ?_⟩
  · rw [hmr_eq]
    constructor
    · intro hn
      rcases hne.mp hn with h1 | h2 | h3
      · exact Or.inl h1
      · exact Or.inr (Or.inl h2)
      · rcases hstat with hs | hs | hs
        · exact Or.inr (Or.inr ⟨hs, h3⟩)
        · exact Or.inr (Or.inl hs)
        · exact Or.inl hs
    · intro hr
      apply hne.mpr
      rcases hr with h1 | h2 | ⟨_, h4⟩
      · exact Or.inl h1
      · exact Or.inr (Or.inl h2)
      · exact Or.inr (Or.inr h4)
  · intro hmatch hconf hmc
    rw [hmr_eq] at hmatch hconf
    have hno : ¬(mr.status = "mismatch" ∨ mr.status = "partial" ∨
        mr.confidence < min_conf) := by
      rintro (h1 | h2 | h3)
      · rw [hmatch] at h1
        exact absurd h1 (by decide)
      · rw [hmatch] at h2
        exact absurd h2 (by decide)
      · rw [hconf, hmc] at h3
        norm_num at h3
    exact Bool.not_eq_true _ |>.mp (fun hn => hno (hne.mp hn))

/-- C5 witness: the policy at a concrete clean batch — `env5` scores its
single pair as a clean `match` with confidence `0.9` against
`min_conf = 0.75`, so no email is needed. -/
theorem C5_reconcile_email_policy_witness :
    (out5.map (fun t => t.needs_email) = [false] ∧
     out5.map (fun t => t.match_result.status) = ["match"] ∧
     out5.map (fun t => t.match_result.confidence) = [9/10]) ∧
    ∀ t ∈ out5,
      (t.needs_email = true ↔
        (t.match_result.status = "mismatch" ∨
         t.match_result.status = "partial" ∨
         (t.match_result.status = "match" ∧
          t.match_result.confidence < 3/4))) ∧
      t.email_reason ∈
        ["Material discrepancies detected",
         "Uncertain match requires clarification",
         "Low confidence match requires review",
         "Clean match - no action required"] ∧
      (t.match_result.status = "match" → t.match_result.confidence = 9/10 →
        (3:ℚ)/4 = 3/4 → t.needs_email = false) :=
  ⟨by with_unfolding_all decide,
   C5_reconcile_email_policy env5 (3/4) [taskIn0] out5
     (by with_unfolding_all decide)⟩

/-- C9: in every found scoring result the facts entry `amount_delta` is
the `amount_delta_abs` feature of the first matching row — the absolute
value of the signed delta — so it is non-negative even when the invoice
total is below the PO total. -/
theorem C9_facts_amount_delta_is_abs (env : Env) (ivc po st : String)
    (c : ℚ) (f : FactsDict)
    (h : score_invoice env ivc po = .ok (.found st c f)) :
    ∃ (r0 : FeatureRow) (rest : List FeatureRow) (q : ℚ),
      (engineer_features env.rand
          (build_links env.rand env.inv_agg env.po)).filter
        (fun r => r.invoice_id == ivc && r.po_number == some po) =
        r0 :: rest ∧
      r0.amount_delta = .val q ∧ r0.amount_delta_abs = .val |q| ∧
      f.amount_delta = some |q| ∧ 0 ≤ f.amount_delta.getD 0 := by
  obtain ⟨r0, rest, hfilter, _, _, hf⟩ :=
    score_invoice_found_inv env ivc po st c f h
  have hr0mem : r0 ∈ engineer_features env.rand
      (build_links env.rand env.inv_agg env.po) := by
    refine List.mem_of_mem_filter (p := fun r =>
      r.invoice_id == ivc && r.po_number == some po) ?_
    rw [hfilter]
    exact List.mem_cons_self _ _
  obtain ⟨ip, _, hrow⟩ := List.mem_map.mp hr0mem
  obtain ⟨q, hq, hqa⟩ := engineerRow_amount_abs env.rand
    (build_links env.rand env.inv_agg env.po).length ip.1 ip.2
  rw [hrow] at hq hqa
  refine ⟨r0, rest, q, hfilter, hq, hqa, ?_, ?_⟩
  · rw [hf]
    show some (r0.amount_delta_abs.valD 0) = some |q|
    rw [hqa]
    rfl
  · rw [hf]
    show (0:ℚ) ≤ (some (r0.amount_delta_abs.valD 0)).getD 0
    rw [hqa]
    exact abs_nonneg q

/-- C9 witness: a concrete under-billed invoice (total `100` against a PO
total of `150`, signed delta `-50`): the facts report
`amount_delta = 50 ≥ 0`. -/
theorem C9_facts_amount_delta_is_abs_witness :
    (facts9.amount_delta = some 50 ∧ inv9.invoice_total = some 100 ∧
     po9.po_total = some 150) ∧
    ∃ (r0 : FeatureRow) (rest : List FeatureRow) (q : ℚ),
      (engineer_features env9.rand
          (build_links env9.rand env9.inv_agg env9.po)).filter
        (fun r => r.invoice_id == "INV0002" &&
          r.po_number == some "PO0002") = r0 :: rest ∧
      r0.amount_delta = .val q ∧ r0.amount_delta_abs = .val |q| ∧
      facts9.amount_delta = some |q| ∧ 0 ≤ facts9.amount_delta.getD 0 :=
  ⟨⟨by with_unfolding_all decide, rfl, rfl⟩,
   C9_facts_amount_delta_is_abs env9 "INV0002" "PO0002" status9 conf9
     facts9 (by with_unfolding_all decide)⟩

end SmartPay
